import Mathlib

/-!
Verification of the meteoblue Home Assistant add-on (`meteoblue/meteoblue.py`)
against its natural-language specification.

The program is a fetch → transform → publish bridge.  We shallowly embed its
pure data transformations as Lean functions and its effectful parts
(HTTP calls, MQTT publishes, the poll loop) as functions from explicit
inputs (environment token, HTTP responses, fetch outcomes) to explicit
outputs (message lists, error results, sleep durations).

Python JSON scalars are embedded by the inductive `Val`; JSON numbers that the
program only ever formats (coordinates) are embedded by `PyNum`, which carries
an integer, or the decimal rendering of a non-integral number (the program does
no arithmetic on them, only `str` formatting).  Python dictionaries with a fixed
schema become structures of `Option` fields; `dict.get(k, d)` becomes
`Option.getD`.  Python truthiness (`if not x`) is embedded per type
(`tokenFalsy`, `numFalsy`, list emptiness, all-fields-`none` for dicts).
-/

namespace Meteoblue

/-- A Python value as the program observes it: either a string or an integer.
Only its identity and its `str` rendering are ever used by the publisher. -/
inductive Val where
  | vstr : String → Val
  | vint : Int → Val
deriving DecidableEq, Repr

/-- Python `str` on an embedded value. -/
def pyStr : Val → String
  | .vstr s => s
  | .vint n => toString n

/-- A JSON number as the program handles it: an integer, or a non-integral
number carried by its decimal rendering (the program never computes with
coordinates or elevations, it only formats them into URLs or returns them). -/
inductive PyNum where
  | int : Int → PyNum
  | dec : String → PyNum
deriving DecidableEq, Repr

/-- Python `str`/f-string rendering of an embedded JSON number. -/
def PyNum.render : PyNum → String
  | .int n => toString n
  | .dec s => s

/-- Python truthiness of an optional number (`if not elevation`): `None` and
`0` are falsy.  `.dec` embeds non-integral numbers, which are never zero. -/
def numFalsy : Option PyNum → Bool
  | none => true
  | some (.int n) => n == 0
  | some (.dec _) => false

/-- Python truthiness of an optional string (`if not token`): `None` and the
empty string are falsy. -/
def tokenFalsy : Option String → Bool
  | none => true
  | some s => s == ""

/-- The `units` object of the add-on configuration (`/data/options.json`). -/
structure Units where
  temperature : Option String
  windspeed : Option String
  precipitation : Option String
deriving DecidableEq, Repr

/-- The add-on configuration object loaded from `/data/options.json`.
Every key is optional at this level; `main` separately requires `api_key`. -/
structure Config where
  api_key : Option String
  latitude : Option PyNum
  longitude : Option PyNum
  elevation : Option PyNum
  units : Option Units
  forecast_days : Option Nat
  packages : Option (List String)
  update_interval : Option Nat
deriving DecidableEq, Repr

/-- The `data` object of the Supervisor's `GET /services/mqtt` response. -/
structure MqttData where
  host : Option String
  port : Option Nat
  username : Option String
  password : Option String
deriving DecidableEq, Repr

/-- An HTTP response (status code plus parsed JSON body). -/
structure HttpResp (α : Type) where
  status : Nat
  body : α
deriving DecidableEq, Repr

/-- The broker settings dictionary returned by `get_mqtt_config`. -/
structure BrokerSettings where
  host : String
  port : Nat
  username : Option String
  password : Option String
deriving DecidableEq, Repr

/-- `get_mqtt_config`: reads `SUPERVISOR_TOKEN` from the environment (its
value is the `token` argument; `none` means unset), raises if it is falsy,
performs `GET /services/mqtt` (whose outcome is the `resp` argument), raises
unless the status is 200, and otherwise returns the broker settings with the
source's defaults `host="core-mosquitto"`, `port=1883`. -/
def get_mqtt_config (token : Option String) (resp : HttpResp MqttData) :
    Except String BrokerSettings :=
  if tokenFalsy token then
    .error "SUPERVISOR_TOKEN not found"
  else if resp.status ≠ 200 then
    .error ("Failed to get MQTT config: " ++ toString resp.status)
  else
    .ok ⟨resp.body.host.getD "core-mosquitto", resp.body.port.getD 1883,
         resp.body.username, resp.body.password⟩

/-- The body of the Home Assistant `GET /core/api/config` response, restricted
to the keys `get_coordinates` reads. -/
structure HaConfigData where
  latitude : Option PyNum
  longitude : Option PyNum
  elevation : Option PyNum
deriving DecidableEq, Repr

/-- Result of `get_coordinates`: how many HTTP GETs were performed against the
Home Assistant config endpoint, and the returned triple or the raised error. -/
structure CoordOutcome where
  networkCalls : Nat
  result : Except String (PyNum × PyNum × Option PyNum)
deriving Repr

/-- `MeteoblueClient.get_coordinates`: if both `latitude` and `longitude` are
present in the configuration (`is None` checks), return them together with the
configured elevation and perform no network call.  Otherwise require a truthy
`SUPERVISOR_TOKEN`, perform one GET against the Home Assistant config endpoint
(`resp` is its outcome), fail unless status 200, and return the reported
latitude/longitude (default `0` each); the reported elevation replaces the
configured one whenever the configured value is falsy (`if not elevation`). -/
def get_coordinates (cfg : Config) (token : Option String)
    (resp : HttpResp HaConfigData) : CoordOutcome :=
  match cfg.latitude, cfg.longitude with
  | some la, some lo => ⟨0, .ok (la, lo, cfg.elevation)⟩
  | _, _ =>
    if tokenFalsy token then
      ⟨0, .error "Cannot get Home Assistant token"⟩
    else if resp.status ≠ 200 then
      ⟨1, .error ("Failed to get HA config: " ++ toString resp.status)⟩
    else
      ⟨1, .ok (resp.body.latitude.getD (.int 0),
               resp.body.longitude.getD (.int 0),
               if numFalsy cfg.elevation then resp.body.elevation
               else cfg.elevation)⟩

/-- The `METEOBLUE_API` constant. -/
def METEOBLUE_API : String := "https://my.meteoblue.com/packages"

/-- The configured temperature unit with the source default `"C"`. -/
def tempUnit (cfg : Config) : String :=
  ((cfg.units.getD ⟨none, none, none⟩).temperature).getD "C"

/-- The configured wind-speed unit with the source default `"ms-1"`. -/
def windUnit (cfg : Config) : String :=
  ((cfg.units.getD ⟨none, none, none⟩).windspeed).getD "ms-1"

/-- The configured precipitation unit with the source default `"mm"`. -/
def precipUnit (cfg : Config) : String :=
  ((cfg.units.getD ⟨none, none, none⟩).precipitation).getD "mm"

/-- `MeteoblueClient.build_url`: joins the package names with `_` and appends
the query parameters in the source's order, with `asl` only when an elevation
is passed.  `api_key` is the client's API key field. -/
def build_url (api_key : String) (cfg : Config) (packages : List String)
    (lat lon : PyNum) (elevation : Option PyNum) : String :=
  let package_str := String.intercalate "_" packages
  let forecast_days := cfg.forecast_days.getD 7
  let params : List String :=
    ["lat=" ++ lat.render,
     "lon=" ++ lon.render,
     "apikey=" ++ api_key,
     "format=json",
     "temperature=" ++ tempUnit cfg,
     "windspeed=" ++ windUnit cfg,
     "precipitationamount=" ++ precipUnit cfg,
     "forecast_days=" ++ toString forecast_days,
     "tz=UTC"]
  let params :=
    match elevation with
    | some e => params ++ ["asl=" ++ e.render]
    | none => params
  METEOBLUE_API ++ "/" ++ package_str ++ "?" ++ String.intercalate "&" params

/-! ## The weather snapshot (provider response body) -/

/-- The `data_current` object of a provider response, restricted to the keys
`publish_current_weather` reads. -/
structure DataCurrent where
  temperature : Option Val
  windspeed : Option Val
  winddirection : Option Val
  relativehumidity : Option Val
  pictocode : Option Val
  isdaylight : Option Val
deriving DecidableEq, Repr

/-- The `data_day` object of a provider response (parallel arrays indexed by
day offset), restricted to the keys `publish_forecast` and `publish_sunmoon`
read. -/
structure DataDay where
  time : Option (List Val)
  temperature_max : Option (List Val)
  temperature_min : Option (List Val)
  precipitation : Option (List Val)
  pictocode : Option (List Val)
  sunrise : Option (List Val)
  sunset : Option (List Val)
  moonrise : Option (List Val)
  moonset : Option (List Val)
  moonphasename : Option (List Val)
deriving DecidableEq, Repr

/-- The empty `data_day` dictionary (`data.get("data_day", {})` default). -/
def DataDay.emptyDict : DataDay :=
  ⟨none, none, none, none, none, none, none, none, none, none⟩

/-- Python truthiness of the `data_day` dictionary (`if not forecast`): a dict
is falsy exactly when it has no keys, i.e. every modelled field is absent. -/
def DataDay.isFalsy (d : DataDay) : Bool :=
  d.time.isNone && d.temperature_max.isNone && d.temperature_min.isNone &&
  d.precipitation.isNone && d.pictocode.isNone && d.sunrise.isNone &&
  d.sunset.isNone && d.moonrise.isNone && d.moonset.isNone &&
  d.moonphasename.isNone

/-- The empty `data_current` dictionary (`data.get("data_current", {})`). -/
def DataCurrent.emptyDict : DataCurrent :=
  ⟨none, none, none, none, none, none⟩

/-- One parsed provider response (`weather_data` in `main`): the two sections
the publisher reads, each `none` when its key is absent. -/
structure Snapshot where
  data_current : Option DataCurrent
  data_day : Option DataDay
deriving DecidableEq, Repr

/-! ## The publisher -/

/-- One `publish_state` call: the entity id and the value passed. -/
structure StateCall where
  entityId : String
  value : Val
deriving DecidableEq, Repr

/-- One `publish_discovery` call: the arguments passed. -/
structure DiscCall where
  sensor_type : String
  name : String
  unit : Option String
  device_class : Option String
  state_class : Option String
  icon : Option String
deriving DecidableEq, Repr

/-- The static `device` metadata of every discovery payload. -/
structure DeviceInfo where
  identifiers : List String
  name : String
  model : String
  manufacturer : String
deriving DecidableEq, Repr

/-- `HomeAssistantPublisher.device_info`. -/
def device_info : DeviceInfo :=
  ⟨["meteoblue_weather"], "Meteoblue Weather", "Weather Station", "Meteoblue"⟩

/-- The JSON discovery payload built by `publish_discovery` (the `config`
dict that is serialised with `json.dumps`; optional keys are `none` when the
corresponding `if` guard in the source skips them). -/
structure DiscoveryPayload where
  name : String
  unique_id : String
  state_topic : String
  device : DeviceInfo
  unit_of_measurement : Option String
  device_class : Option String
  state_class : Option String
  icon : Option String
deriving DecidableEq, Repr

/-- An MQTT publish: topic, payload (a serialised JSON object for discovery,
the plain rendering of a value for state), and the retain flag. -/
inductive Payload where
  | json : DiscoveryPayload → Payload
  | raw : String → Payload
deriving DecidableEq, Repr

/-- One message handed to `mqtt_client.publish`. -/
structure MqttMsg where
  topic : String
  payload : Payload
  retain : Bool
deriving DecidableEq, Repr

/-- Optional-dict-entry guard of `publish_discovery` (`if unit: ...`): the
key is included only when the argument is truthy (present and non-empty). -/
def optField (o : Option String) : Option String :=
  match o with
  | some s => if s = "" then none else some s
  | none => none

/-- The entity id derived by `publish_discovery`:
`name.lower().replace(" ", "_")`.  Lower-casing then replacing the
single-character pattern `" "` is character-wise, so it is embedded as one
character map (the names used are ASCII, where Python `str.lower` agrees with
`Char.toLower`; spaces are unaffected by lower-casing). -/
def entityIdOf (name : String) : String :=
  ⟨name.data.map (fun c => if c.toLower = ' ' then '_' else c.toLower)⟩

/-- `HomeAssistantPublisher.publish_discovery`: derives the entity id, builds
the discovery payload, and publishes it retained on
`homeassistant/sensor/meteoblue/{entity_id}/config`. -/
def publish_discovery (c : DiscCall) : MqttMsg :=
  let entity_id := entityIdOf c.name
  ⟨"homeassistant/sensor/meteoblue/" ++ entity_id ++ "/config",
   .json ⟨c.name, "meteoblue_" ++ entity_id, "meteoblue/" ++ entity_id ++ "/state",
          device_info, optField c.unit, optField c.device_class,
          optField c.state_class, optField c.icon⟩,
   true⟩

/-- `HomeAssistantPublisher.publish_state`: publishes `str(state)` on
`meteoblue/{entity_id}/state`, not retained (paho's default). -/
def publish_state (c : StateCall) : MqttMsg :=
  ⟨"meteoblue/" ++ c.entityId ++ "/state", .raw (pyStr c.value), false⟩

/-- `setup_current_sensors`: the six current-weather discovery calls, in
source order. -/
def setup_current_sensors : List DiscCall :=
  [⟨"sensor", "Temperature", some "°C", some "temperature", some "measurement", some "mdi:thermometer"⟩,
   ⟨"sensor", "Wind Speed", some "m/s", none, some "measurement", some "mdi:weather-windy"⟩,
   ⟨"sensor", "Wind Direction", some "°", none, some "measurement", some "mdi:compass"⟩,
   ⟨"sensor", "Humidity", some "%", some "humidity", some "measurement", some "mdi:water-percent"⟩,
   ⟨"sensor", "Pictocode", none, none, none, some "mdi:weather-partly-cloudy"⟩,
   ⟨"sensor", "Is Daylight", none, none, none, some "mdi:weather-sunny"⟩]

/-- The four discovery calls of one iteration of `setup_forecast_sensors`. -/
def forecastSensorRow (day : Nat) : List DiscCall :=
  [⟨"sensor", "Forecast Day " ++ toString day ++ " Temp Max", some "°C", some "temperature", none, some "mdi:thermometer-high"⟩,
   ⟨"sensor", "Forecast Day " ++ toString day ++ " Temp Min", some "°C", some "temperature", none, some "mdi:thermometer-low"⟩,
   ⟨"sensor", "Forecast Day " ++ toString day ++ " Precipitation", some "mm", none, none, some "mdi:weather-rainy"⟩,
   ⟨"sensor", "Forecast Day " ++ toString day ++ " Pictocode", none, none, none, some "mdi:weather-partly-cloudy"⟩]

/-- `setup_forecast_sensors(days)`: `for day in range(days)`, four discovery
calls per day, day 0 first. -/
def setup_forecast_sensors : Nat → List DiscCall
  | 0 => []
  | n + 1 => setup_forecast_sensors n ++ forecastSensorRow n

/-- `setup_sunmoon_sensors`: the five sun/moon discovery calls, in source
order. -/
def setup_sunmoon_sensors : List DiscCall :=
  [⟨"sensor", "Sunrise", none, some "timestamp", none, some "mdi:weather-sunset-up"⟩,
   ⟨"sensor", "Sunset", none, some "timestamp", none, some "mdi:weather-sunset-down"⟩,
   ⟨"sensor", "Moonrise", none, some "timestamp", none, some "mdi:moon-waxing-crescent"⟩,
   ⟨"sensor", "Moonset", none, some "timestamp", none, some "mdi:moon-waning-crescent"⟩,
   ⟨"sensor", "Moon Phase", none, none, none, some "mdi:moon-full"⟩]

/-- A guarded state publish (`if key in dict: publish_state(id, dict[key])`). -/
def optMsg (id : String) (o : Option Val) : List StateCall :=
  match o with
  | some v => [⟨id, v⟩]
  | none => []

/-- `publish_current_weather`: publishes each of the six current-conditions
keys that is present, in source order, under its entity id
(`current = data.get("data_current", {})`). -/
def publish_current_weather (data : Snapshot) : List StateCall :=
  optMsg "temperature" (data.data_current.getD DataCurrent.emptyDict).temperature ++
  optMsg "wind_speed" (data.data_current.getD DataCurrent.emptyDict).windspeed ++
  optMsg "wind_direction" (data.data_current.getD DataCurrent.emptyDict).winddirection ++
  optMsg "humidity" (data.data_current.getD DataCurrent.emptyDict).relativehumidity ++
  optMsg "pictocode" (data.data_current.getD DataCurrent.emptyDict).pictocode ++
  optMsg "is_daylight" (data.data_current.getD DataCurrent.emptyDict).isdaylight

/-- One guarded per-day publish of `publish_forecast`
(`if key in forecast and i < len(forecast[key]): publish_state(...)`). -/
def fcItem (o : Option (List Val)) (label : String) (i : Nat) : List StateCall :=
  match o with
  | none => []
  | some l =>
    match l[i]? with
    | some v => [⟨"forecast_day_" ++ toString i ++ "_" ++ label, v⟩]
    | none => []

/-- The four guarded publishes of iteration `i` of `publish_forecast`. -/
def forecastRow (fc : DataDay) (i : Nat) : List StateCall :=
  fcItem fc.temperature_max "temp_max" i ++
  fcItem fc.temperature_min "temp_min" i ++
  fcItem fc.precipitation "precipitation" i ++
  fcItem fc.pictocode "pictocode" i

/-- `for i, time in enumerate(times)` over the first `n` indices, in order. -/
def forecastRows (fc : DataDay) : Nat → List StateCall
  | 0 => []
  | n + 1 => forecastRows fc n ++ forecastRow fc n

/-- `publish_forecast`: returns nothing when the `data_day` dict is falsy,
otherwise iterates over `enumerate(forecast.get("time", []))` and publishes
each per-day field that is present and long enough. -/
def publish_forecast (data : Snapshot) : List StateCall :=
  if (data.data_day.getD DataDay.emptyDict).isFalsy then []
  else
    forecastRows (data.data_day.getD DataDay.emptyDict)
      ((data.data_day.getD DataDay.emptyDict).time.getD []).length

/-- One guarded head publish of `publish_sunmoon`
(`if key in sunmoon and sunmoon[key]: publish_state(id, sunmoon[key][0])`). -/
def headMsg (id : String) (o : Option (List Val)) : List StateCall :=
  match o with
  | some (v :: _) => [⟨id, v⟩]
  | _ => []

/-- `publish_sunmoon`: returns nothing when the `data_day` dict is falsy or
its `time` entry is falsy (absent or empty); otherwise publishes the first
element of each present, non-empty sun/moon array. -/
def publish_sunmoon (data : Snapshot) : List StateCall :=
  if (data.data_day.getD DataDay.emptyDict).isFalsy ||
      ((data.data_day.getD DataDay.emptyDict).time.getD []).isEmpty then []
  else
    headMsg "sunrise" (data.data_day.getD DataDay.emptyDict).sunrise ++
    headMsg "sunset" (data.data_day.getD DataDay.emptyDict).sunset ++
    headMsg "moonrise" (data.data_day.getD DataDay.emptyDict).moonrise ++
    headMsg "moonset" (data.data_day.getD DataDay.emptyDict).moonset ++
    headMsg "moon_phase" (data.data_day.getD DataDay.emptyDict).moonphasename

/-! ## The main loop and the startup/poll trace -/

/-- The state publishes of one successful poll cycle body in `main`: current
weather only when the response has a `data_current` key, forecast and sun/moon
only when it has a `data_day` key. -/
def cycleStates (snap : Snapshot) : List StateCall :=
  (if snap.data_current.isSome then publish_current_weather snap else []) ++
  (if snap.data_day.isSome then publish_forecast snap ++ publish_sunmoon snap else [])

/-- `update_interval = config.get("update_interval", 30) * 60`. -/
def updateIntervalSeconds (cfg : Config) : Nat :=
  cfg.update_interval.getD 30 * 60

/-- The observable outcome of one iteration of the `while True` loop. -/
structure CycleOutcome where
  published : List StateCall
  loggedError : Option String
  sleepSeconds : Nat
  terminated : Bool
deriving DecidableEq, Repr

/-- One iteration of `main`'s poll loop.  `fetchResult` is the outcome of the
fallible part of the `try` block (`fetch_weather` together with the publish
calls): on success the cycle's states are published and no error is logged; on
an exception the error is logged (`except Exception`) and nothing is
re-raised.  Either way the loop sleeps `update_interval` seconds and
continues. -/
def pollCycle (cfg : Config) (fetchResult : Except String Snapshot) : CycleOutcome :=
  match fetchResult with
  | .ok snap => ⟨cycleStates snap, none, updateIntervalSeconds cfg, false⟩
  | .error e => ⟨[], some ("Error updating weather: " ++ e), updateIntervalSeconds cfg, false⟩

/-- The poll loop over a (finite prefix of the infinite) sequence of cycle
outcomes: every cycle runs, regardless of earlier failures. -/
def pollLoop (cfg : Config) (results : List (Except String Snapshot)) : List CycleOutcome :=
  results.map (pollCycle cfg)

/-- The discovery calls of `main`'s startup, in call order:
`setup_current_sensors()`, `setup_forecast_sensors(config.get("forecast_days", 7))`,
`setup_sunmoon_sensors()`. -/
def startupDiscovery (cfg : Config) : List DiscCall :=
  setup_current_sensors ++
  setup_forecast_sensors (cfg.forecast_days.getD 7) ++
  setup_sunmoon_sensors

/-- The full sequence of MQTT messages `main` publishes: the startup discovery
messages, then the state messages of each poll cycle in order. -/
def mainTrace (cfg : Config) (cycles : List (Except String Snapshot)) : List MqttMsg :=
  (startupDiscovery cfg).map publish_discovery ++
  cycles.flatMap (fun r => (pollCycle cfg r).published.map publish_state)

/-! ## Auxiliary executable predicates used in theorem statements -/

/-- `isPreOf n h`: the character list `n` is an initial segment of `h`. -/
def isPreOf : List Char → List Char → Bool
  | [], _ => true
  | _ :: _, [] => false
  | a :: as, b :: bs => a == b && isPreOf as bs

/-- `hasSub n h`: the character list `n` occurs contiguously inside `h`
(used to state that a URL does not contain a given parameter name). -/
def hasSub (needle : List Char) : List Char → Bool
  | [] => needle.isEmpty
  | c :: t => isPreOf needle (c :: t) || hasSub needle t

/-- `isSufOf n h`: the character list `n` is a final segment of `h`
(used to select the `..._temp_max` state messages). -/
def isSufOf (n h : List Char) : Bool :=
  isPreOf n.reverse h.reverse

/-! ## Shared helper lemmas -/

theorem intercalate_go_append_last (s y : String) :
    ∀ (xs : List String) (acc : String),
      String.intercalate.go acc s (xs ++ [y]) = String.intercalate.go acc s xs ++ (s ++ y)
  | [], acc => by
    simp [String.intercalate.go, String.append_assoc]
  | x :: xs, acc => by
    simpa [String.intercalate.go] using intercalate_go_append_last s y xs (acc ++ s ++ x)

theorem intercalate_go_nine (s y a2 a3 a4 a5 a6 a7 a8 a9 acc : String) :
    String.intercalate.go acc s [a2, a3, a4, a5, a6, a7, a8, a9, y] =
      String.intercalate.go acc s [a2, a3, a4, a5, a6, a7, a8, a9] ++ (s ++ y) := by
  simpa using intercalate_go_append_last s y [a2, a3, a4, a5, a6, a7, a8, a9] acc

/-! ## Claim C2 -/

set_option maxRecDepth 8000 in
/-- Claim C2: `build_url` is pure and deterministic; the URL is the provider
base plus the package names joined with `_` followed by the query parameters
in exactly the order lat, lon, apikey, format=json, temperature, windspeed,
precipitationamount, forecast_days, tz=UTC, then asl only when elevation is
known, with unit defaults C / ms-1 / mm; for packages `["current"]`, lat 47.1,
lon 8.3, no elevation, default units the URL ends with
`precipitationamount=mm&forecast_days=7&tz=UTC` and contains no `asl`
parameter, and supplying elevation 500 appends `&asl=500`. -/
theorem C2_build_url_pure_and_ordered :
    (∀ (key : String) (cfg : Config) (p : List String) (la lo : PyNum) (e : Option PyNum),
      build_url key cfg p la lo e = build_url key cfg p la lo e) ∧
    (∀ (key : String) (cfg : Config) (p : List String) (la lo : PyNum),
      build_url key cfg p la lo none =
        METEOBLUE_API ++ "/" ++ String.intercalate "_" p ++ "?" ++
          String.intercalate "&"
            ["lat=" ++ la.render, "lon=" ++ lo.render, "apikey=" ++ key, "format=json",
             "temperature=" ++ tempUnit cfg, "windspeed=" ++ windUnit cfg,
             "precipitationamount=" ++ precipUnit cfg,
             "forecast_days=" ++ toString (cfg.forecast_days.getD 7), "tz=UTC"]) ∧
    (∀ (key : String) (cfg : Config) (p : List String) (la lo : PyNum) (el : PyNum),
      build_url key cfg p la lo (some el) =
        build_url key cfg p la lo none ++ "&asl=" ++ el.render) ∧
    build_url "KEY" ⟨some "KEY", none, none, none, none, none, none, none⟩
        ["current"] (.dec "47.1") (.dec "8.3") none =
      "https://my.meteoblue.com/packages/current?lat=47.1&lon=8.3&apikey=KEY&format=json&temperature=C&windspeed=ms-1&precipitationamount=mm&forecast_days=7&tz=UTC" ∧
    (∃ pre : String,
      build_url "KEY" ⟨some "KEY", none, none, none, none, none, none, none⟩
          ["current"] (.dec "47.1") (.dec "8.3") none =
        pre ++ "precipitationamount=mm&forecast_days=7&tz=UTC") ∧
    hasSub "asl".data
      (build_url "KEY" ⟨some "KEY", none, none, none, none, none, none, none⟩
        ["current"] (.dec "47.1") (.dec "8.3") none).data = false ∧
    build_url "KEY" ⟨some "KEY", none, none, none, none, none, none, none⟩
        ["current"] (.dec "47.1") (.dec "8.3") (some (.int 500)) =
      "https://my.meteoblue.com/packages/current?lat=47.1&lon=8.3&apikey=KEY&format=json&temperature=C&windspeed=ms-1&precipitationamount=mm&forecast_days=7&tz=UTC&asl=500" := by
  have hurl : build_url "KEY" ⟨some "KEY", none, none, none, none, none, none, none⟩
      ["current"] (.dec "47.1") (.dec "8.3") none =
      "https://my.meteoblue.com/packages/current?lat=47.1&lon=8.3&apikey=KEY&format=json&temperature=C&windspeed=ms-1&precipitationamount=mm&forecast_days=7&tz=UTC" := by
    decide
  refine ⟨fun _ _ _ _ _ _ => rfl, fun _ _ _ _ _ => rfl, ?_, hurl,
    ⟨"https://my.meteoblue.com/packages/current?lat=47.1&lon=8.3&apikey=KEY&format=json&temperature=C&windspeed=ms-1&",
      by rw [hurl]; decide⟩,
    by rw [hurl]; decide, by decide⟩
  intro key cfg p la lo el
  simp only [build_url, String.intercalate, List.cons_append, List.nil_append]
  rw [intercalate_go_nine]
  simp only [String.append_assoc]
  rfl

/-! ## Claim C3 -/

theorem setup_forecast_sensors_length (d : Nat) :
    (setup_forecast_sensors d).length = 4 * d := by
  induction d with
  | zero => rfl
  | succ n ih =>
    show (setup_forecast_sensors n ++ forecastSensorRow n).length = 4 * (n + 1)
    rw [List.length_append, ih]
    show 4 * n + 4 = 4 * (n + 1)
    omega

/-- Claim C3: at startup exactly 6 current-weather, `4 × forecast_days`
forecast, and 5 sun/moon discovery messages are published, in that call
order, and no state message of any poll cycle appears in the published trace
before all of these discovery messages. -/
theorem C3_catalogue_before_any_state :
    ∀ (cfg : Config) (cycles : List (Except String Snapshot)),
      setup_current_sensors.length = 6 ∧
      (∀ d : Nat, (setup_forecast_sensors d).length = 4 * d) ∧
      setup_sunmoon_sensors.length = 5 ∧
      startupDiscovery cfg =
        setup_current_sensors ++ setup_forecast_sensors (cfg.forecast_days.getD 7) ++
          setup_sunmoon_sensors ∧
      ((startupDiscovery cfg).map publish_discovery).length =
        6 + 4 * cfg.forecast_days.getD 7 + 5 ∧
      (mainTrace cfg cycles).take (6 + 4 * cfg.forecast_days.getD 7 + 5) =
        (startupDiscovery cfg).map publish_discovery ∧
      (∀ m ∈ (startupDiscovery cfg).map publish_discovery,
        ∃ d, m = publish_discovery d ∧ m.retain = true ∧ ∃ pl, m.payload = .json pl) ∧
      (∀ m ∈ (mainTrace cfg cycles).drop (6 + 4 * cfg.forecast_days.getD 7 + 5),
        ∃ c, m = publish_state c ∧ ∃ r, m.payload = .raw r) := by
  intro cfg cycles
  have hlen : ((startupDiscovery cfg).map publish_discovery).length =
      6 + 4 * cfg.forecast_days.getD 7 + 5 := by
    rw [List.length_map, startupDiscovery, List.length_append, List.length_append,
      setup_forecast_sensors_length]
    show 6 + 4 * cfg.forecast_days.getD 7 + 5 = _
    rfl
  refine ⟨rfl, setup_forecast_sensors_length, rfl, rfl, hlen, ?_, ?_, ?_⟩
  · rw [mainTrace, ← hlen, List.take_left]
  · intro m hm
    obtain ⟨d, -, rfl⟩ := List.mem_map.mp hm
    exact ⟨d, rfl, rfl, _, rfl⟩
  · rw [mainTrace, ← hlen, List.drop_left]
    intro m hm
    obtain ⟨r, -, hm2⟩ := List.mem_flatMap.mp hm
    obtain ⟨c, -, rfl⟩ := List.mem_map.mp hm2
    exact ⟨c, rfl, _, rfl⟩

set_option maxRecDepth 8000 in
/-- Witness for C3 at a concrete input: with an all-default configuration and
one successful cycle publishing a temperature, the (6 + 4·7 + 5 = 33)-message
discovery prefix is followed by that state message, which the theorem
recognises as a `publish_state`. -/
theorem C3_catalogue_before_any_state_witness :
    ∃ c, publish_state ⟨"temperature", Val.vint 20⟩ = publish_state c ∧
      ∃ r, (publish_state ⟨"temperature", Val.vint 20⟩).payload = .raw r :=
  (C3_catalogue_before_any_state
      ⟨some "KEY", none, none, none, none, none, none, none⟩
      [.ok ⟨some ⟨some (.vint 20), none, none, none, none, none⟩, none⟩]).2.2.2.2.2.2.2
    (publish_state ⟨"temperature", Val.vint 20⟩) (by decide)

/-! ## Claim C1 -/

/-- Claim C1 (amended): with both latitude and longitude configured,
`get_coordinates` performs no network call and returns exactly the configured
latitude, longitude and elevation.  Otherwise it performs the GET exactly once
when the bearer credential is present (none when it is absent, failing), fails
when the call does not succeed, and on success returns the platform-reported
latitude/longitude (each defaulting to 0) and takes the platform-reported
elevation whenever the configured elevation is absent or falsy — in
particular a configured elevation of `0` is replaced, not preserved. -/
theorem C1_get_coordinates_amended :
    ∀ (cfg : Config) (token : Option String) (resp : HttpResp HaConfigData),
      (∀ la lo, cfg.latitude = some la → cfg.longitude = some lo →
        get_coordinates cfg token resp = ⟨0, .ok (la, lo, cfg.elevation)⟩) ∧
      (cfg.latitude = none ∨ cfg.longitude = none →
        ((get_coordinates cfg token resp).networkCalls =
          if tokenFalsy token then 0 else 1) ∧
        (tokenFalsy token = true →
          ∃ e, (get_coordinates cfg token resp).result = .error e) ∧
        (tokenFalsy token = false → resp.status ≠ 200 →
          ∃ e, (get_coordinates cfg token resp).result = .error e) ∧
        (tokenFalsy token = false → resp.status = 200 →
          (get_coordinates cfg token resp).result =
            .ok (resp.body.latitude.getD (.int 0), resp.body.longitude.getD (.int 0),
                 if numFalsy cfg.elevation then resp.body.elevation
                 else cfg.elevation))) := by
  intro cfg token resp
  obtain ⟨ak, clat, clon, cel, cu, cfd, cp, cui⟩ := cfg
  constructor
  · intro la lo hla hlo
    simp only at hla hlo
    subst hla hlo
    rfl
  · intro hmiss
    simp only at hmiss
    rcases clat with _ | la <;> rcases clon with _ | lo
    case some.some => rcases hmiss with h | h <;> exact Option.noConfusion h
    all_goals
      refine ⟨?_, ?_, ?_, ?_⟩
      · by_cases ht : tokenFalsy token = true <;> by_cases hs : resp.status = 200 <;>
          simp [get_coordinates, ht, hs]
      · intro ht; simp [get_coordinates, ht]
      · intro ht hs; simp [get_coordinates, ht, hs]
      · intro ht hs; simp [get_coordinates, ht, hs]

/-- Counterexample for C1 as stated: elevation configured as `0`, latitude
missing; the platform reports elevation `123`.  The claim says the configured
elevation `0` is returned (elevation taken from the platform only when not
configured), but the code returns the platform's `123`. -/
theorem C1_get_coordinates_counterexample :
    (get_coordinates
        ⟨some "KEY", none, some (.int 8), some (.int 0), none, none, none, none⟩
        (some "tok")
        ⟨200, ⟨some (.dec "47.1"), some (.dec "8.3"), some (.int 123)⟩⟩).result =
      .ok (.dec "47.1", .dec "8.3", some (.int 123)) ∧
    some (PyNum.int 123) ≠ some (PyNum.int 0) := by
  exact ⟨rfl, by decide⟩

/-- Witness for C1 at a concrete input: with latitude and longitude
configured, the coordinates come straight from the configuration with zero
network calls, even when the token is absent and the response would fail. -/
theorem C1_get_coordinates_amended_witness :
    get_coordinates
        ⟨some "KEY", some (.dec "47.1"), some (.dec "8.3"), some (.int 500),
          none, none, none, none⟩
        none ⟨500, ⟨none, none, none⟩⟩ =
      ⟨0, .ok (.dec "47.1", .dec "8.3", some (.int 500))⟩ :=
  (C1_get_coordinates_amended
      ⟨some "KEY", some (.dec "47.1"), some (.dec "8.3"), some (.int 500),
        none, none, none, none⟩
      none ⟨500, ⟨none, none, none⟩⟩).1 _ _ rfl rfl

/-! ## Claim C5 -/

/-- Claim C5: `publish_discovery` derives the entity id as the lower-cased
name with spaces replaced by underscores (so "Wind Speed" yields
`wind_speed`), publishes the discovery JSON to
`homeassistant/sensor/meteoblue/{entity_id}/config` with the retain flag set
and a `state_topic` of `meteoblue/{entity_id}/state`; and `publish_state`
publishes the value's string form to `meteoblue/{entity_id}/state` without
the retain flag. -/
theorem C5_topic_derivation_and_flags :
    entityIdOf "Wind Speed" = "wind_speed" ∧
    (∀ c : DiscCall,
      (publish_discovery c).topic =
          "homeassistant/sensor/meteoblue/" ++ entityIdOf c.name ++ "/config" ∧
      (publish_discovery c).retain = true ∧
      ∃ pl, (publish_discovery c).payload = .json pl ∧
        pl.state_topic = "meteoblue/" ++ entityIdOf c.name ++ "/state") ∧
    (publish_discovery ⟨"sensor", "Wind Speed", some "m/s", none, some "measurement",
        some "mdi:weather-windy"⟩).topic =
      "homeassistant/sensor/meteoblue/wind_speed/config" ∧
    (∀ c : StateCall,
      publish_state c =
        ⟨"meteoblue/" ++ c.entityId ++ "/state", .raw (pyStr c.value), false⟩) := by
  exact ⟨by decide, fun c => ⟨rfl, rfl, ⟨_, rfl, rfl⟩⟩, by decide, fun c => rfl⟩

/-! ## Claim C9 -/

/-- Claim C9: `get_mqtt_config` raises an error exactly when the bearer
credential is absent (Python-falsy) in the environment or the supervisory
call does not return success; otherwise it returns broker settings whose host
defaults to `"core-mosquitto"` and port to `1883` whenever the response omits
them, with username and password passed through. -/
theorem C9_get_mqtt_config_contract :
    ∀ (token : Option String) (resp : HttpResp MqttData),
      ((∃ e, get_mqtt_config token resp = .error e) ↔
        (tokenFalsy token = true ∨ resp.status ≠ 200)) ∧
      (tokenFalsy token = false → resp.status = 200 →
        ∃ s, get_mqtt_config token resp = .ok s ∧
          (resp.body.host = none → s.host = "core-mosquitto") ∧
          (∀ h, resp.body.host = some h → s.host = h) ∧
          (resp.body.port = none → s.port = 1883) ∧
          (∀ q, resp.body.port = some q → s.port = q) ∧
          s.username = resp.body.username ∧ s.password = resp.body.password) := by
  intro token resp
  constructor
  · constructor
    · intro ⟨e, he⟩
      by_contra hc
      push_neg at hc
      obtain ⟨h1, h2⟩ := hc
      rw [get_mqtt_config, if_neg (by simp [Bool.not_eq_true] at h1 ⊢; exact h1),
        if_neg (by simpa using h2)] at he
      exact Except.noConfusion he
    · intro h
      rcases h with h | h
      · exact ⟨_, by rw [get_mqtt_config, if_pos h]⟩
      · by_cases ht : tokenFalsy token = true
        · exact ⟨_, by rw [get_mqtt_config, if_pos ht]⟩
        · exact ⟨_, by rw [get_mqtt_config, if_neg ht, if_pos h]⟩
  · intro h1 h2
    refine ⟨_, by rw [get_mqtt_config, if_neg (by simp [h1]), if_neg (by simp [h2])], ?_⟩
    refine ⟨fun hh => by simp [hh], fun h hh => by simp [hh], fun hp => by simp [hp],
      fun q hq => by simp [hq], rfl, rfl⟩

/-- Witness for C9 at a concrete input: a present token and a 200 response
with host and port omitted yield the default broker settings. -/
theorem C9_get_mqtt_config_contract_witness :
    ∃ s, get_mqtt_config (some "tok") ⟨200, ⟨none, none, some "u", some "p"⟩⟩ = .ok s ∧
      s.host = "core-mosquitto" ∧ s.port = 1883 := by
  obtain ⟨s, hs, hhost, -, hport, -, -, -⟩ :=
    (C9_get_mqtt_config_contract (some "tok") ⟨200, ⟨none, none, some "u", some "p"⟩⟩).2
      (by decide) rfl
  exact ⟨s, hs, hhost rfl, hport rfl⟩

/-! ## Claim C6 -/

/-- Claim C6: every poll-loop cycle in which the fetch-and-publish block
raises logs the error, does not re-raise, does not terminate the loop, and
still sleeps the full `update_interval * 60` seconds (default 30 minutes,
i.e. 1800 s) before the next attempt, exactly as a successful cycle does; the
loop runs one outcome per cycle regardless of failures. -/
theorem C6_poll_loop_resilient :
    ∀ (cfg : Config) (r : Except String Snapshot),
      (pollCycle cfg r).terminated = false ∧
      (pollCycle cfg r).sleepSeconds = cfg.update_interval.getD 30 * 60 ∧
      (∀ e, r = .error e →
        (pollCycle cfg r).loggedError = some ("Error updating weather: " ++ e)) ∧
      (∀ (e : String) (s : Snapshot),
        (pollCycle cfg (.error e)).sleepSeconds = (pollCycle cfg (.ok s)).sleepSeconds) ∧
      (cfg.update_interval = none → (pollCycle cfg r).sleepSeconds = 1800) ∧
      (∀ results : List (Except String Snapshot),
        (pollLoop cfg results).length = results.length) := by
  intro cfg r
  refine ⟨?_, ?_, ?_, fun e s => rfl, ?_, fun results => List.length_map results _⟩
  · cases r <;> rfl
  · cases r <;> rfl
  · intro e he; subst he; rfl
  · intro h; cases r <;> simp [pollCycle, updateIntervalSeconds, h]

/-- Witness for C6 at a concrete input: a failed cycle of an all-default
configuration logs the error and sleeps 1800 seconds. -/
theorem C6_poll_loop_resilient_witness :
    (pollCycle ⟨some "KEY", none, none, none, none, none, none, none⟩
        (.error "boom")).sleepSeconds = 1800 ∧
    (pollCycle ⟨some "KEY", none, none, none, none, none, none, none⟩
        (.error "boom")).loggedError = some "Error updating weather: boom" ∧
    (pollCycle ⟨some "KEY", none, none, none, none, none, none, none⟩
        (.error "boom")).terminated = false := by
  obtain ⟨hterm, -, hlog, -, hdef, -⟩ :=
    C6_poll_loop_resilient ⟨some "KEY", none, none, none, none, none, none, none⟩
      (.error "boom")
  exact ⟨hdef rfl, hlog "boom" rfl, hterm⟩

/-! ## Claim C7 -/

theorem mem_headMsg {id : String} {o : Option (List Val)} {m : StateCall}
    (h : m ∈ headMsg id o) :
    m.entityId = id ∧ ∃ l, o = some l ∧ l.head? = some m.value := by
  match o with
  | none => simp [headMsg] at h
  | some [] => simp [headMsg] at h
  | some (v :: t) =>
    simp [headMsg] at h
    subst h
    exact ⟨rfl, v :: t, rfl, rfl⟩

/-- Claim C7: every sun/moon state message published by `publish_sunmoon`
(sunrise, sunset, moonrise, moonset, moon_phase) carries the first (index 0)
element of the corresponding `data_day` array; no element at index 1 or
beyond is ever published. -/
theorem C7_sunmoon_first_element_only :
    ∀ (s : Snapshot) (m : StateCall), m ∈ publish_sunmoon s →
      ∃ dd, s.data_day = some dd ∧
        ((m.entityId = "sunrise" ∧ ∃ l, dd.sunrise = some l ∧ l.head? = some m.value) ∨
         (m.entityId = "sunset" ∧ ∃ l, dd.sunset = some l ∧ l.head? = some m.value) ∨
         (m.entityId = "moonrise" ∧ ∃ l, dd.moonrise = some l ∧ l.head? = some m.value) ∨
         (m.entityId = "moonset" ∧ ∃ l, dd.moonset = some l ∧ l.head? = some m.value) ∨
         (m.entityId = "moon_phase" ∧
           ∃ l, dd.moonphasename = some l ∧ l.head? = some m.value)) := by
  intro s m hm
  rcases hdd : s.data_day with _ | dd
  · rw [publish_sunmoon, hdd] at hm
    simp [DataDay.emptyDict, DataDay.isFalsy] at hm
  · rw [publish_sunmoon, hdd] at hm
    simp only [Option.getD_some] at hm
    refine ⟨dd, rfl, ?_⟩
    by_cases hc : (DataDay.isFalsy dd || ((dd.time.getD []).isEmpty : Bool)) = true
    · rw [if_pos hc] at hm
      simp at hm
    · rw [if_neg hc] at hm
      rcases List.mem_append.mp hm with h | h
      rcases List.mem_append.mp h with h | h
      rcases List.mem_append.mp h with h | h
      rcases List.mem_append.mp h with h | h
      · exact Or.inl (mem_headMsg h)
      · exact Or.inr (Or.inl (mem_headMsg h))
      · exact Or.inr (Or.inr (Or.inl (mem_headMsg h)))
      · exact Or.inr (Or.inr (Or.inr (Or.inl (mem_headMsg h))))
      · exact Or.inr (Or.inr (Or.inr (Or.inr (mem_headMsg h))))

/-- Witness for C7 at a concrete input: a two-day sunrise array yields a
sunrise message carrying its first element. -/
theorem C7_sunmoon_first_element_only_witness :
    ∃ dd,
      (⟨none, some ⟨some [.vstr "d1", .vstr "d2"], none, none, none, none,
          some [.vstr "06:00", .vstr "06:01"], none, none, none, none⟩⟩ :
        Snapshot).data_day = some dd ∧
      ((StateCall.entityId ⟨"sunrise", .vstr "06:00"⟩ = "sunrise" ∧
          ∃ l, dd.sunrise = some l ∧
            l.head? = some (StateCall.value ⟨"sunrise", .vstr "06:00"⟩)) ∨
       (StateCall.entityId ⟨"sunrise", .vstr "06:00"⟩ = "sunset" ∧
          ∃ l, dd.sunset = some l ∧
            l.head? = some (StateCall.value ⟨"sunrise", .vstr "06:00"⟩)) ∨
       (StateCall.entityId ⟨"sunrise", .vstr "06:00"⟩ = "moonrise" ∧
          ∃ l, dd.moonrise = some l ∧
            l.head? = some (StateCall.value ⟨"sunrise", .vstr "06:00"⟩)) ∨
       (StateCall.entityId ⟨"sunrise", .vstr "06:00"⟩ = "moonset" ∧
          ∃ l, dd.moonset = some l ∧
            l.head? = some (StateCall.value ⟨"sunrise", .vstr "06:00"⟩)) ∨
       (StateCall.entityId ⟨"sunrise", .vstr "06:00"⟩ = "moon_phase" ∧
          ∃ l, dd.moonphasename = some l ∧
            l.head? = some (StateCall.value ⟨"sunrise", .vstr "06:00"⟩))) :=
  C7_sunmoon_first_element_only
    ⟨none, some ⟨some [.vstr "d1", .vstr "d2"], none, none, none, none,
        some [.vstr "06:00", .vstr "06:01"], none, none, none, none⟩⟩
    ⟨"sunrise", .vstr "06:00"⟩ (by decide)

/-! ## Claim C4 -/

theorem filter_fcItem_of_pred_false (o : Option (List Val)) (label : String) (i : Nat)
    (p : StateCall → Bool)
    (h : ∀ v : Val, p ⟨"forecast_day_" ++ toString i ++ "_" ++ label, v⟩ = false) :
    (fcItem o label i).filter p = [] := by
  rcases o with _ | l
  · rfl
  · rw [fcItem]
    rcases l[i]? with _ | v
    · rfl
    · simp [h]

/-- Claim C4: for every snapshot whose `data_day.temperature_max` and
`data_day.time` both have 3 elements, `publish_forecast` publishes exactly 3
`forecast_day_N_temp_max` state messages (N = 0, 1, 2), each carrying the
N-th element of `temperature_max`, and publishes nothing for any day index
beyond the array length — the output consists of rows for days 0, 1 and 2
only, and `publish_forecast` does not consult `forecast_days` at all (the
configuration is not among its inputs). -/
theorem C4_forecast_bounded_by_arrays :
    ∀ (dc : Option DataCurrent) (dd : DataDay) (t0 t1 t2 a b c : Val),
      dd.time = some [t0, t1, t2] →
      dd.temperature_max = some [a, b, c] →
      (publish_forecast ⟨dc, some dd⟩).filter
          (fun m => isSufOf "_temp_max".data m.entityId.data) =
        [⟨"forecast_day_0_temp_max", a⟩, ⟨"forecast_day_1_temp_max", b⟩,
         ⟨"forecast_day_2_temp_max", c⟩] ∧
      publish_forecast ⟨dc, some dd⟩ =
        (([] ++ forecastRow dd 0) ++ forecastRow dd 1) ++ forecastRow dd 2 := by
  intro dc dd t0 t1 t2 a b c ht hmax
  have hfal : dd.isFalsy = false := by simp [DataDay.isFalsy, ht]
  have hlen : (dd.time.getD [] : List Val).length = 3 := by rw [ht]; rfl
  have hrows : publish_forecast ⟨dc, some dd⟩ =
      (([] ++ forecastRow dd 0) ++ forecastRow dd 1) ++ forecastRow dd 2 := by
    simp only [publish_forecast, Option.getD_some]
    rw [if_neg (by simp [hfal]), hlen]
    rfl
  refine ⟨?_, hrows⟩
  rw [hrows]
  simp only [forecastRow, List.nil_append, List.filter_append]
  rw [hmax,
    filter_fcItem_of_pred_false dd.temperature_min "temp_min" 0 _ (fun _ => rfl),
    filter_fcItem_of_pred_false dd.precipitation "precipitation" 0 _ (fun _ => rfl),
    filter_fcItem_of_pred_false dd.pictocode "pictocode" 0 _ (fun _ => rfl),
    filter_fcItem_of_pred_false dd.temperature_min "temp_min" 1 _ (fun _ => rfl),
    filter_fcItem_of_pred_false dd.precipitation "precipitation" 1 _ (fun _ => rfl),
    filter_fcItem_of_pred_false dd.pictocode "pictocode" 1 _ (fun _ => rfl),
    filter_fcItem_of_pred_false dd.temperature_min "temp_min" 2 _ (fun _ => rfl),
    filter_fcItem_of_pred_false dd.precipitation "precipitation" 2 _ (fun _ => rfl),
    filter_fcItem_of_pred_false dd.pictocode "pictocode" 2 _ (fun _ => rfl)]
  rfl

/-- Witness for C4 at a concrete input: three days of `time` and
`temperature_max` (and a five-day `temperature_min`) yield exactly the three
`forecast_day_N_temp_max` messages. -/
theorem C4_forecast_bounded_by_arrays_witness :
    (publish_forecast
        ⟨none, some ⟨some [.vstr "d1", .vstr "d2", .vstr "d3"],
            some [.vint 10, .vint 11, .vint 12],
            some [.vint 1, .vint 2, .vint 3, .vint 4, .vint 5],
            none, none, none, none, none, none, none⟩⟩).filter
      (fun m => isSufOf "_temp_max".data m.entityId.data) =
      [⟨"forecast_day_0_temp_max", .vint 10⟩, ⟨"forecast_day_1_temp_max", .vint 11⟩,
       ⟨"forecast_day_2_temp_max", .vint 12⟩] :=
  (C4_forecast_bounded_by_arrays none
    ⟨some [.vstr "d1", .vstr "d2", .vstr "d3"],
      some [.vint 10, .vint 11, .vint 12],
      some [.vint 1, .vint 2, .vint 3, .vint 4, .vint 5],
      none, none, none, none, none, none, none⟩
    (.vstr "d1") (.vstr "d2") (.vstr "d3") (.vint 10) (.vint 11) (.vint 12)
    rfl rfl).1

/-! ## Claim C8 -/

theorem current_filter_temperature (s : Snapshot) :
    (publish_current_weather s).filter (fun m => m.entityId == "temperature") =
      optMsg "temperature" (s.data_current.getD DataCurrent.emptyDict).temperature := by
  rcases s with ⟨dc, dd⟩
  rcases dc with _ | ⟨t, w, wd, hu, pc, dl⟩
  · rfl
  · cases t <;> cases w <;> cases wd <;> cases hu <;> cases pc <;> cases dl <;> rfl

theorem current_filter_windspeed (s : Snapshot) :
    (publish_current_weather s).filter (fun m => m.entityId == "wind_speed") =
      optMsg "wind_speed" (s.data_current.getD DataCurrent.emptyDict).windspeed := by
  rcases s with ⟨dc, dd⟩
  rcases dc with _ | ⟨t, w, wd, hu, pc, dl⟩
  · rfl
  · cases t <;> cases w <;> cases wd <;> cases hu <;> cases pc <;> cases dl <;> rfl

theorem current_filter_winddirection (s : Snapshot) :
    (publish_current_weather s).filter (fun m => m.entityId == "wind_direction") =
      optMsg "wind_direction" (s.data_current.getD DataCurrent.emptyDict).winddirection := by
  rcases s with ⟨dc, dd⟩
  rcases dc with _ | ⟨t, w, wd, hu, pc, dl⟩
  · rfl
  · cases t <;> cases w <;> cases wd <;> cases hu <;> cases pc <;> cases dl <;> rfl

theorem current_filter_humidity (s : Snapshot) :
    (publish_current_weather s).filter (fun m => m.entityId == "humidity") =
      optMsg "humidity" (s.data_current.getD DataCurrent.emptyDict).relativehumidity := by
  rcases s with ⟨dc, dd⟩
  rcases dc with _ | ⟨t, w, wd, hu, pc, dl⟩
  · rfl
  · cases t <;> cases w <;> cases wd <;> cases hu <;> cases pc <;> cases dl <;> rfl

theorem current_filter_pictocode (s : Snapshot) :
    (publish_current_weather s).filter (fun m => m.entityId == "pictocode") =
      optMsg "pictocode" (s.data_current.getD DataCurrent.emptyDict).pictocode := by
  rcases s with ⟨dc, dd⟩
  rcases dc with _ | ⟨t, w, wd, hu, pc, dl⟩
  · rfl
  · cases t <;> cases w <;> cases wd <;> cases hu <;> cases pc <;> cases dl <;> rfl

theorem current_filter_isdaylight (s : Snapshot) :
    (publish_current_weather s).filter (fun m => m.entityId == "is_daylight") =
      optMsg "is_daylight" (s.data_current.getD DataCurrent.emptyDict).isdaylight := by
  rcases s with ⟨dc, dd⟩
  rcases dc with _ | ⟨t, w, wd, hu, pc, dl⟩
  · rfl
  · cases t <;> cases w <;> cases wd <;> cases hu <;> cases pc <;> cases dl <;> rfl

/-- Claim C8: `publish_current_weather` publishes exactly one state message
for each current-conditions field present in the snapshot (temperature,
windspeed, winddirection, humidity — source key `relativehumidity` —,
pictocode, isdaylight), carrying that field's value, and silently publishes
nothing for each absent field. -/
theorem C8_current_present_fields_only :
    ∀ s : Snapshot,
      (∀ v, (s.data_current.getD DataCurrent.emptyDict).temperature = some v →
        (publish_current_weather s).filter (fun m => m.entityId == "temperature") =
          [⟨"temperature", v⟩]) ∧
      ((s.data_current.getD DataCurrent.emptyDict).temperature = none →
        (publish_current_weather s).filter (fun m => m.entityId == "temperature") = []) ∧
      (∀ v, (s.data_current.getD DataCurrent.emptyDict).windspeed = some v →
        (publish_current_weather s).filter (fun m => m.entityId == "wind_speed") =
          [⟨"wind_speed", v⟩]) ∧
      ((s.data_current.getD DataCurrent.emptyDict).windspeed = none →
        (publish_current_weather s).filter (fun m => m.entityId == "wind_speed") = []) ∧
      (∀ v, (s.data_current.getD DataCurrent.emptyDict).winddirection = some v →
        (publish_current_weather s).filter (fun m => m.entityId == "wind_direction") =
          [⟨"wind_direction", v⟩]) ∧
      ((s.data_current.getD DataCurrent.emptyDict).winddirection = none →
        (publish_current_weather s).filter (fun m => m.entityId == "wind_direction") = []) ∧
      (∀ v, (s.data_current.getD DataCurrent.emptyDict).relativehumidity = some v →
        (publish_current_weather s).filter (fun m => m.entityId == "humidity") =
          [⟨"humidity", v⟩]) ∧
      ((s.data_current.getD DataCurrent.emptyDict).relativehumidity = none →
        (publish_current_weather s).filter (fun m => m.entityId == "humidity") = []) ∧
      (∀ v, (s.data_current.getD DataCurrent.emptyDict).pictocode = some v →
        (publish_current_weather s).filter (fun m => m.entityId == "pictocode") =
          [⟨"pictocode", v⟩]) ∧
      ((s.data_current.getD DataCurrent.emptyDict).pictocode = none →
        (publish_current_weather s).filter (fun m => m.entityId == "pictocode") = []) ∧
      (∀ v, (s.data_current.getD DataCurrent.emptyDict).isdaylight = some v →
        (publish_current_weather s).filter (fun m => m.entityId == "is_daylight") =
          [⟨"is_daylight", v⟩]) ∧
      ((s.data_current.getD DataCurrent.emptyDict).isdaylight = none →
        (publish_current_weather s).filter (fun m => m.entityId == "is_daylight") = []) := by
  intro s
  refine ⟨?_, ?_, ?_, ?_, ?_, ?_, ?_, ?_, ?_, ?_, ?_, ?_⟩
  · intro v hv; rw [current_filter_temperature, hv]; rfl
  · intro hv; rw [current_filter_temperature, hv]; rfl
  · intro v hv; rw [current_filter_windspeed, hv]; rfl
  · intro hv; rw [current_filter_windspeed, hv]; rfl
  · intro v hv; rw [current_filter_winddirection, hv]; rfl
  · intro hv; rw [current_filter_winddirection, hv]; rfl
  · intro v hv; rw [current_filter_humidity, hv]; rfl
  · intro hv; rw [current_filter_humidity, hv]; rfl
  · intro v hv; rw [current_filter_pictocode, hv]; rfl
  · intro hv; rw [current_filter_pictocode, hv]; rfl
  · intro v hv; rw [current_filter_isdaylight, hv]; rfl
  · intro hv; rw [current_filter_isdaylight, hv]; rfl

/-- Witness for C8 at a concrete input: a snapshot whose current section has
a temperature but no windspeed publishes exactly one temperature message and
no wind-speed message. -/
theorem C8_current_present_fields_only_witness :
    (publish_current_weather
        ⟨some ⟨some (.vint 21), none, none, none, none, none⟩, none⟩).filter
      (fun m => m.entityId == "temperature") = [⟨"temperature", .vint 21⟩] ∧
    (publish_current_weather
        ⟨some ⟨some (.vint 21), none, none, none, none, none⟩, none⟩).filter
      (fun m => m.entityId == "wind_speed") = [] := by
  obtain ⟨hTp, -, -, hWa, -⟩ :=
    C8_current_present_fields_only
      ⟨some ⟨some (.vint 21), none, none, none, none, none⟩, none⟩
  exact ⟨hTp (.vint 21) rfl, hWa rfl⟩

/-! ## Claim C10 -/

/-- Claim C10: whenever the `data_day` section lacks the `time` key or its
`time` array is empty, `publish_forecast` and `publish_sunmoon` publish no
state messages at all, even when other field arrays of the section are
present and non-empty. -/
theorem C10_time_gates_daily_publish :
    ∀ (s : Snapshot) (dd : DataDay), s.data_day = some dd →
      (dd.time = none ∨ dd.time = some []) →
      publish_forecast s = [] ∧ publish_sunmoon s = [] := by
  intro s dd h hde
  have ht : dd.time.getD [] = [] := by rcases hde with h1 | h1 <;> simp [h1]
  constructor
  · simp [publish_forecast, h, ht, forecastRows]
  · simp [publish_sunmoon, h, ht]

/-- Witness for C10 at a concrete input: a `data_day` with no `time` key but
a non-empty `sunrise` array publishes nothing. -/
theorem C10_time_gates_daily_publish_witness :
    publish_forecast
        ⟨none, some ⟨none, none, none, none, none, some [.vstr "07:00"], none, none, none, none⟩⟩
      = [] ∧
    publish_sunmoon
        ⟨none, some ⟨none, none, none, none, none, some [.vstr "07:00"], none, none, none, none⟩⟩
      = [] :=
  C10_time_gates_daily_publish _ _ rfl (Or.inl rfl)

end Meteoblue
